import Mathlib

/-!
Shallow embedding of the docintel document pipeline, cursor pagination,
cache layer and upload service, with theorems checking the specification
claims against the code.

Source files embedded here:
- app/models/document.py, app/models/task.py  (enums and record shapes)
- app/features/documents/tasks.py             (processing pipeline, retries, sweep)
- app/features/documents/router_v2.py         (bulk actions)
- app/core/query_helpers.py, app/schemas/pagination.py (cursor pagination)
- app/core/cache.py                           (cache manager failure policy)
- app/features/documents/service.py, storage.py (upload path)

Conventions of the embedding:
- timestamps are Nat ticks; uuid draws are a Nat counter threaded in state;
- bytes are List Nat; the SHA256 digest is modelled as the identity on the
  byte list (an injective digest, which is what the dedup check relies on);
- Python exceptions are an explicit PyExc value; a function that can raise
  returns Except PyExc / an explicit outcome value;
- database commits are applied to an explicit state record at the commit
  points of the source; in-memory changes that the source never commits
  are not applied to the state.
-/

namespace DocIntel

/-- DocumentStatus enum from app/models/document.py. -/
inductive DocumentStatus
  | pending
  | processing
  | completed
  | failed
  | archived
  deriving DecidableEq, Repr

/-- DocumentType enum from app/models/document.py. -/
inductive DocumentType
  | pdf
  | word
  | text
  | markdown
  | other
  deriving DecidableEq, Repr

/-- TaskStatus enum from app/models/task.py. -/
inductive TaskStatus
  | pending
  | started
  | retry
  | success
  | failure
  | revoked
  deriving DecidableEq, Repr

/-- Python exception kinds that the embedded code can raise. -/
inductive PyExc
  | valueError
  | integrityError
  | typeError
  | attributeError
  | operationalError
  | badRequest
  | multipleResultsFound
  | runtimeError
  deriving DecidableEq, Repr

/-- Storage path produced by generate_file_path in storage.py:
tenants/\x7btenant_id\x7d/\x7byear\x7d/\x7bmonth\x7d/\x7buuid\x7d_\x7bfilename\x7d.
The uuid component makes it collision-free; year/month are omitted as they
carry no information used by any claim. -/
structure StoragePath where
  tenant_id : Nat
  uuid : Nat
  filename : String
  deriving DecidableEq, Repr

/-- Document row, app/models/document.py (fields used by the claims). -/
structure Document where
  id : Nat
  title : String
  filename : String
  file_path : StoragePath
  file_size : Nat
  file_hash : Option (List Nat)
  document_type : DocumentType
  status : DocumentStatus
  processing_started_at : Option Nat
  processing_completed_at : Option Nat
  error_message : Option PyExc
  text_content : Option String
  page_count : Option Nat
  is_deleted : Bool
  tenant_id : Nat
  created_at : Nat
  deriving DecidableEq, Repr

/-- Task row, app/models/task.py (fields used by the claims).  The table has
a UNIQUE index on task_id.  retry_count and max_retries carry the column
defaults 0 and 3, applied when the row is inserted. -/
structure TaskRow where
  task_id : Nat
  status : TaskStatus
  progress : Nat
  retry_count : Nat
  max_retries : Nat
  error : Option PyExc
  completed_at : Option Nat
  deriving DecidableEq, Repr

/-- Database state seen by one processing job: the document row fetched by
id (none when the row does not exist) and the tasks table. -/
structure PipelineState where
  document : Option Document
  tasks : List TaskRow
  deriving DecidableEq, Repr

/-- Outcome of one delivery of the process_document job.
retryScheduled is the Retry raised by task_instance.retry (the queue
redelivers the job after the countdown); raised is any other exception
propagating out of the task body (the queue marks the job failed and does
not redeliver). -/
inductive AttemptResult
  | success
  | retryScheduled (countdown : Nat) (orig : PyExc)
  | raised (e : PyExc)
  deriving DecidableEq, Repr

/-- Environment of one attempt: outcomes of the external collaborators
(blob storage, PyPDF2, python-docx, utf-8 decoding) and an optional fault
injected into the pipeline body after the document fetch (modelling any
exception raised by the processing steps themselves, e.g. a failing
commit), which is what the retry machinery reacts to. -/
structure ExtractEnv where
  /-- storage.get(document.file_path): some bytes, or none when it raised. -/
  storage_get : Option (List Nat)
  /-- text PyPDF2 yields on those bytes (extract_text_from_pdf catches its
  own errors and returns a string, possibly empty). -/
  pdf_text : String
  /-- text python-docx yields (extract_text_from_docx catches internally). -/
  docx_text : String
  /-- outcome of file_content.decode for text/markdown files: none when the
  decode raised UnicodeDecodeError. -/
  utf8_decode : Option String
  /-- outcome of count_pdf_pages (it catches everything and returns None on
  any failure, including its own storage read). -/
  pdf_page_count : Option Nat
  /-- exception raised by the pipeline body after the document was fetched
  and marked processing, if any. -/
  body_fault : Option PyExc
  deriving DecidableEq, Repr

/-- extract_text_from_file from tasks.py: every failure inside is caught
and turned into None; an unsupported type is None as well. -/
def extract_text_from_file (doc : Document) (env : ExtractEnv) : Option String :=
  match env.storage_get with
  | none => none
  | some content =>
    if content.isEmpty then none
    else
      match doc.document_type with
      | .pdf => some env.pdf_text
      | .word => some env.docx_text
      | .text => env.utf8_decode
      | .markdown => env.utf8_decode
      | .other => none

/-- count_pdf_pages from tasks.py: catches everything, None on failure. -/
def count_pdf_pages (env : ExtractEnv) : Option Nat :=
  env.pdf_page_count

/-- Update the task row with the given task_id. -/
def updateTask (tasks : List TaskRow) (req_id : Nat) (f : TaskRow → TaskRow) : List TaskRow :=
  tasks.map (fun t => if t.task_id = req_id then f t else t)

/-- Python comparison a < b on two optional integers: raises TypeError when
either operand is None (an ORM column attribute is None before the row's
insert applied its default). -/
def pyLt (a b : Option Nat) : Except PyExc Bool :=
  match a, b with
  | some x, some y => .ok (decide (x < y))
  | _, _ => .error .typeError

/-- Result of one attempt: the outcome, the committed database state, and
the trace of committed document-status changes (old, new), recording only
writes that change the value. -/
structure AttemptOut where
  result : AttemptResult
  state : PipelineState
  docWrites : List (DocumentStatus × DocumentStatus)
  deriving DecidableEq, Repr

/-- Mark the state's document failed with the error message, as the except
handler of _process_document_async does when the document local is set. -/
def markDocFailed (e : PyExc) (st : PipelineState) : PipelineState :=
  { st with document := st.document.map (fun d => { d with status := .failed, error_message := some e }) }

/-- The except-handler of _process_document_async (tasks.py lines 482-506).
docFetched reflects the Python `if document:` guard; rcOpt/mrOpt are the
task object's retry_count/max_retries attributes (None when the row insert
never flushed, so the column defaults were never applied); st is the
database state as of the last successful commit.  taskInserted tells
whether the task row is in st and must be updated at the commit. -/
def pipeline_except (e : PyExc) (now req_id : Nat) (docFetched : Bool)
    (taskInserted : Bool) (rcOpt mrOpt : Option Nat)
    (st : PipelineState) : AttemptOut :=
  let docWrites :=
    if docFetched then
      match st.document with
      | some d => if d.status = .failed then [] else [(d.status, DocumentStatus.failed)]
      | none => []
    else []
  let stDoc := if docFetched then markDocFailed e st else st
  match pyLt rcOpt mrOpt with
  | .error te =>
    -- comparing None attributes raises TypeError before any commit:
    -- the in-memory failure markings are never persisted
    { result := .raised te, state := st, docWrites := [] }
  | .ok true =>
    let rc := rcOpt.getD 0
    let stR := { stDoc with tasks := updateTask stDoc.tasks req_id (fun t =>
      { t with status := .retry, error := some e, completed_at := some now,
               retry_count := rc + 1 }) }
    { result := .retryScheduled (60 * 2 ^ (rc + 1)) e,
      state := if taskInserted then stR else stDoc,
      docWrites := docWrites }
  | .ok false =>
    let stF := { stDoc with tasks := updateTask stDoc.tasks req_id (fun t =>
      { t with status := .failure, error := some e, completed_at := some now }) }
    { result := .raised e,
      state := if taskInserted then stF else stDoc,
      docWrites := docWrites }

/-- One delivery of the process_document job: _process_document_async from
tasks.py, lines 408-506.  req_id is the Celery task id of the delivery
(kept identical across retries of the same job). -/
def process_document_attempt (req_id now : Nat) (env : ExtractEnv)
    (st : PipelineState) : AttemptOut :=
  -- 1. create the task tracking record and commit; the UNIQUE index on
  -- task_id makes the insert raise IntegrityError when a row for this
  -- delivery id already exists (then the task object is never flushed and
  -- its retry_count/max_retries attributes are still None)
  if st.tasks.any (fun t => t.task_id = req_id) then
    pipeline_except .integrityError now req_id false false none none st
  else
    let row0 : TaskRow :=
      { task_id := req_id, status := .started, progress := 0,
        retry_count := 0, max_retries := 3, error := none, completed_at := none }
    let st1 : PipelineState := { st with tasks := st.tasks ++ [row0] }
    -- 2. fetch the document by id
    match st1.document with
    | none =>
      -- `raise ValueError(f"Document not found: ...")`
      pipeline_except .valueError now req_id false true (some 0) (some 3) st1
    | some doc =>
      -- 3. status := processing, processing_started_at, progress 10, commit
      let docP := { doc with status := .processing, processing_started_at := some now }
      let w1 : List (DocumentStatus × DocumentStatus) :=
        if doc.status = .processing then [] else [(doc.status, DocumentStatus.processing)]
      let st2 : PipelineState :=
        { document := some docP,
          tasks := updateTask st1.tasks req_id (fun t => { t with progress := 10 }) }
      match env.body_fault with
      | some e =>
        let out := pipeline_except e now req_id true true (some 0) (some 3) st2
        { out with docWrites := w1 ++ out.docWrites }
      | none =>
        -- 4. extract text (never raises: everything is caught inside)
        let text_content := extract_text_from_file docP env
        let st3 : PipelineState :=
          { st2 with tasks := updateTask st2.tasks req_id (fun t => { t with progress := 50 }) }
        -- 5. count pages for PDFs only
        let page_count := if docP.document_type = .pdf then count_pdf_pages env else none
        let st4 : PipelineState :=
          { st3 with tasks := updateTask st3.tasks req_id (fun t => { t with progress := 70 }) }
        -- 6. final update: text truncated to 10000 chars, empty-or-None
        -- text stored as NULL; document completed; task success
        let textTrunc : Option String :=
          match text_content with
          | none => none
          | some s => if s = "" then none else some (s.take 10000)
        let docC := { docP with
          text_content := textTrunc, page_count := page_count,
          status := .completed, processing_completed_at := some now }
        let st5 : PipelineState :=
          { document := some docC,
            tasks := updateTask st4.tasks req_id (fun t =>
              { t with status := .success, progress := 100, completed_at := some now }) }
        { result := .success, state := st5,
          docWrites := w1 ++ [(DocumentStatus.processing, DocumentStatus.completed)] }

/-- Redeliver the job while each attempt ends in task_instance.retry, as
the at-least-once queue does; any other outcome ends the chain (the queue
acknowledges the delivery and marks the job failed or done).  Returns the
number of attempts executed, the final state, and the last outcome. -/
def redeliver (req_id now : Nat) (env : ExtractEnv) :
    Nat → PipelineState → Nat × PipelineState × AttemptResult
  | 0, st => (0, st, .success)
  | fuel + 1, st =>
    let out := process_document_attempt req_id now env st
    match out.result with
    | .retryScheduled _ _ =>
      let rest := redeliver req_id now env fuel out.state
      (rest.1 + 1, rest.2)
    | r => (1, out.state, r)

/-- The stuck-document sweep, _cleanup_failed_documents_async from
tasks.py lines 574-588: documents in processing whose
processing_started_at is older than one hour are forced to failed. -/
def cleanup_failed_documents (now : Nat) (docs : List Document) :
    List Document × List (DocumentStatus × DocumentStatus) :=
  let stale := fun (d : Document) =>
    d.status = .processing &&
      match d.processing_started_at with
      | some t => decide (t < now - 3600)
      | none => false
  (docs.map (fun d => if stale d then
      { d with status := .failed, error_message := some .runtimeError } else d),
   (docs.filter stale).map (fun _ => (DocumentStatus.processing, DocumentStatus.failed)))

/-- Actions accepted by the bulk endpoint (bulk_schemas.py). -/
inductive BulkAction
  | delete
  | archive
  | restore
  | reprocess
  deriving DecidableEq, Repr

/-- Result counters of the bulk endpoint. -/
structure BulkResult where
  total_requested : Nat
  succeeded : Nat
  failed : Nat
  skipped : Nat
  deriving DecidableEq, Repr

/-- The per-document body of bulk_document_action (router_v2.py lines
165-192).  Returns the updated document and true when counted succeeded,
false when counted skipped. -/
def bulk_apply (action : BulkAction) (d : Document) : Document × Bool :=
  match action with
  | .delete => ({ d with is_deleted := true }, true)
  | .archive => ({ d with status := .archived }, true)
  | .restore =>
    if !d.is_deleted then (d, false)
    else ({ d with is_deleted := false }, true)
  | .reprocess =>
    if d.status ≠ .failed ∧ d.status ≠ .completed then (d, false)
    else ({ d with status := .pending, error_message := none }, true)

/-- Status-change trace of one committed document write. -/
def statusWrite (old new : Document) : List (DocumentStatus × DocumentStatus) :=
  if old.status = new.status then [] else [(old.status, new.status)]

/-- One iteration of the per-id loop of bulk_document_action: look the id
up in the fetched pool (duplicate ids see the already-mutated object),
apply the action, bump the counters, record the status write. -/
def bulk_step (action : BulkAction)
    (acc : List Document × BulkResult × List (DocumentStatus × DocumentStatus))
    (i : Nat) : List Document × BulkResult × List (DocumentStatus × DocumentStatus) :=
  match acc.1.find? (fun d => d.id = i) with
  | none => (acc.1, { acc.2.1 with skipped := acc.2.1.skipped + 1 }, acc.2.2)
  | some d =>
    let pool2 := acc.1.map (fun x => if x.id = i then (bulk_apply action d).1 else x)
    if (bulk_apply action d).2 then
      (pool2, { acc.2.1 with succeeded := acc.2.1.succeeded + 1 },
       acc.2.2 ++ statusWrite d (bulk_apply action d).1)
    else
      (pool2, { acc.2.1 with skipped := acc.2.1.skipped + 1 },
       acc.2.2 ++ statusWrite d (bulk_apply action d).1)

/-- bulk_document_action from router_v2.py (lines 135-215): one fetch of
all requested ids scoped to the tenant, then per-id in-session mutation of
the pool, one commit.  Returns the updated rows, the counters, and the
status-change trace. -/
def bulk_document_action (action : BulkAction) (tenant : Nat)
    (document_ids : List Nat) (docs : List Document) :
    List Document × BulkResult × List (DocumentStatus × DocumentStatus) :=
  let fetched := docs.filter (fun d => d.id ∈ document_ids && d.tenant_id = tenant)
  let r := document_ids.foldl (bulk_step action)
    (fetched, { total_requested := document_ids.length, succeeded := 0, failed := 0, skipped := 0 }, [])
  -- commit: merge the mutated rows back over the table
  (docs.map (fun d => (r.1.find? (fun x => x.id = d.id)).getD d), r.2.1, r.2.2)

/-- The transition edges spelled out by claim C1 and section 4.1 of the
spec: pending to processing, processing to completed or failed, failed to
pending, and completed or failed to archived.  This definition follows the
SPEC wording, for comparison against the code's behaviour. -/
def specEdge : DocumentStatus → DocumentStatus → Bool
  | .pending, .processing => true
  | .processing, .completed => true
  | .processing, .failed => true
  | .failed, .pending => true
  | .completed, .archived => true
  | .failed, .archived => true
  | _, _ => false

/-- The status-change edges the code can actually perform (pipeline step,
bulk action, sweep): the pipeline sets any fetched document to processing
and moves processing to completed or failed (the sweep also does
processing to failed); bulk archive moves any status to archived; bulk
reprocess moves both failed and completed to pending. -/
def amendedEdge (a b : DocumentStatus) : Bool :=
  a ≠ b &&
    (b = .processing ||
     (a = .processing && (b = .completed || b = .failed)) ||
     ((a = .failed || a = .completed) && b = .pending) ||
     b = .archived)

/-- Cursor direction (schemas/pagination.py: forward or backward). -/
inductive CursorDir
  | next
  | prev
  deriving DecidableEq, Repr

/-- Decoded cursor payload: last-seen sort value, last-seen id, direction
(encode_cursor in schemas/pagination.py).  The created_at sort value is a
Nat tick here; the base64/JSON wire encoding is modelled separately for
the decode-robustness claim. -/
structure CursorData where
  last_value : Nat
  last_id : Nat
  direction : CursorDir
  deriving DecidableEq, Repr

/-- The WHERE clause execute_cursor adds for a decoded cursor
(query_helpers.py lines 164-175): strict inequality on the sort field
only; the last_id component of the cursor is never used. -/
def cursorQuery (docs : List Document) : Option CursorData → List Document
  | none => docs
  | some c =>
    match c.direction with
    | .next => docs.filter (fun d => d.created_at < c.last_value)
    | .prev => docs.filter (fun d => c.last_value < d.created_at)

/-- Descending order on the sort field used by the listing query
(order_by(cursor_field.desc())).  Ties are resolved by the stable sort of
the model; SQL leaves them unspecified, and no claim depends on which
order ties come back in. -/
def createdDesc (a b : Document) : Prop :=
  b.created_at ≤ a.created_at

instance : DecidableRel createdDesc :=
  fun a b => Nat.decLe b.created_at a.created_at

instance : IsTotal Document createdDesc :=
  ⟨fun a b => Nat.le_total b.created_at a.created_at⟩

instance : IsTrans Document createdDesc :=
  ⟨fun _ _ _ h1 h2 => Nat.le_trans h2 h1⟩

/-- Strictly-descending order on the sort field: holds pairwise on the
sorted query result whenever the sort values are distinct. -/
def createdGt (a b : Document) : Prop :=
  b.created_at < a.created_at

instance : IsAntisymm Document createdGt :=
  ⟨fun _ _ h1 h2 => absurd h1 (Nat.lt_asymm h2)⟩

/-- The sorted result set of the cursor-filtered query. -/
def sortedQuery (docs : List Document) (cursor : Option CursorData) : List Document :=
  List.insertionSort createdDesc (cursorQuery docs cursor)

/-- QueryBuilder.execute_cursor from query_helpers.py (lines 146-207):
fetch limit + 1 rows of the cursor-filtered, descending-ordered query;
has_next when more than limit came back; next_cursor from the last item of
the truncated page, prev_cursor from the first item when a cursor was
supplied.  Returns (items, next_cursor, prev_cursor). -/
def execute_cursor (docs : List Document) (cursor : Option CursorData) (limit : Nat) :
    List Document × Option CursorData × Option CursorData :=
  let sorted := sortedQuery docs cursor
  let fetched := sorted.take (limit + 1)
  let has_next : Bool := limit < fetched.length
  let items := if has_next then fetched.take limit else fetched
  let next_cursor : Option CursorData :=
    if has_next then
      match items.getLast? with
      | some last => some ⟨last.created_at, last.id, CursorDir.next⟩
      | none => none
    else none
  let prev_cursor : Option CursorData :=
    if cursor.isSome then
      match items.head? with
      | some first => some ⟨first.created_at, first.id, CursorDir.prev⟩
      | none => none
    else none
  (items, next_cursor, prev_cursor)

/-- Iterate the listing end-to-end: start from the given cursor and follow
next_cursor until it is none, concatenating the pages.  Fuel-based: the
claims instantiate fuel large enough for the whole snapshot. -/
def paginate_all (docs : List Document) (limit : Nat) :
    Nat → Option CursorData → List Document
  | 0, _ => []
  | fuel + 1, cursor =>
    let r := execute_cursor docs cursor limit
    match r.2.1 with
    | none => r.1
    | some c => r.1 ++ paginate_all docs limit fuel (some c)

/-- Full iteration from cursor=null over a fixed snapshot. -/
def paginate_from_start (docs : List Document) (limit : Nat) : List Document :=
  paginate_all docs limit (docs.length + 1) none

/-- A Python JSON value, as json.loads can return it. -/
inductive PyJson
  | null
  | jbool (b : Bool)
  | jnum (n : Int)
  | jstr (s : String)
  | jarr (elems : List PyJson)
  | jobj (fields : List (String × PyJson))

/-- Outcome of base64.urlsafe_b64decode + json.loads on a cursor string
(python stdlib, external collaborator): none when either raised on the
input, some j when the string decodes to the JSON value j.  For example a
garbage string gives none, and the string W10= (base64 of the two
characters open-bracket close-bracket) gives some (jarr []). -/
def ParsedCursor : Type := Option PyJson

/-- decode_cursor from schemas/pagination.py (lines 34-45): any failure of
the stdlib decoding is converted to ValueError; a successfully decoded
JSON value is returned as is (no shape check). -/
def decode_cursor (parsed : ParsedCursor) : Except PyExc PyJson :=
  match parsed with
  | none => .error .valueError
  | some j => .ok j

/-- Python attribute access j.get(key): only dict has .get; on any other
value it raises AttributeError.  Returns none for a missing key (Python
None). -/
def dict_get (j : PyJson) (key : String) : Except PyExc (Option PyJson) :=
  match j with
  | .jobj fields => .ok ((fields.find? (fun f => f.1 = key)).map (fun f => f.2))
  | _ => .error .attributeError

/-- The filter derived from the cursor by execute_cursor. -/
inductive CursorFilter
  | noFilter
  | ltFilter (v : Option PyJson)
  | gtFilter (v : Option PyJson)

/-- The cursor-handling block of QueryBuilder.execute_cursor
(query_helpers.py lines 162-175), at the wire level: no cursor means no
filter; a supplied cursor is decoded, only ValueError is caught (treated
as start-from-beginning); then last_value and direction are read with
.get, and the strict-inequality filter is built.  Any exception other than
ValueError escapes to the caller of the listing. -/
def cursor_clause (cursor : Option ParsedCursor) : Except PyExc CursorFilter :=
  match cursor with
  | none => .ok .noFilter
  | some parsed =>
    match decode_cursor parsed with
    | .error .valueError => .ok .noFilter
    | .error e => .error e
    | .ok data =>
      match dict_get data "last_value" with
      | .error e => .error e
      | .ok lastv =>
        match dict_get data "direction" with
        | .error e => .error e
        | .ok dirv =>
          -- direction = cursor_data.get("direction", "next")
          let isNext : Bool :=
            match dirv with
            | none => true
            | some (.jstr s) => s = "next"
            | some _ => false
          if isNext then .ok (.ltFilter lastv) else .ok (.gtFilter lastv)

/-- Cache backend state: reachable Redis with a value store and counter
store, or an unavailable backend on which every client call raises. -/
inductive CacheBackend
  | up (store : List (String × String)) (counters : List (String × Int))
  | down
  deriving DecidableEq, Repr

/-- CacheManager._build_key from core/cache.py. -/
def build_key (ns key : String) : String :=
  "docintel:" ++ ns ++ ":" ++ key

/-- CacheManager.get: returns the cached value, or None on a miss, or None
when the backend raised (fail open, cache.py lines 74-93). -/
def cache_get (b : CacheBackend) (ns key : String) : Option String :=
  match b with
  | .up store _ => (store.find? (fun e => e.1 = build_key ns key)).map (fun e => e.2)
  | .down => none

/-- CacheManager.set: true on success, false when the backend raised
(fail open, cache.py lines 95-124). -/
def cache_set (b : CacheBackend) (ns key value : String) :
    Bool × CacheBackend :=
  match b with
  | .up store counters =>
    (true, .up ((build_key ns key, value) ::
      store.filter (fun e => e.1 ≠ build_key ns key)) counters)
  | .down => (false, b)

/-- CacheManager.delete: whether a key was removed; false when the backend
raised (fail open, cache.py lines 126-136). -/
def cache_delete (b : CacheBackend) (ns key : String) :
    Bool × CacheBackend :=
  match b with
  | .up store counters =>
    ((store.find? (fun e => e.1 = build_key ns key)).isSome,
     .up (store.filter (fun e => e.1 ≠ build_key ns key)) counters)
  | .down => (false, b)

/-- CacheManager.invalidate_namespace: deletes every key matching the
namespace pattern and returns how many; 0 when the backend raised (fail
open, cache.py lines 138-162). -/
def invalidate_namespace (b : CacheBackend) (ns : String) :
    Nat × CacheBackend :=
  match b with
  | .up store counters =>
    ((store.filter (fun e => (build_key ns "").isPrefixOf e.1)).length,
     .up (store.filter (fun e => ¬ (build_key ns "").isPrefixOf e.1)) counters)
  | .down => (0, b)

/-- CacheManager.exists: false when the backend raised (fail open,
cache.py lines 164-172). -/
def cache_exists (b : CacheBackend) (ns key : String) : Bool :=
  match b with
  | .up store _ => (store.find? (fun e => e.1 = build_key ns key)).isSome
  | .down => false

/-- CacheManager.increment (cache.py lines 174-203): INCR through a
pipeline; on any backend error it logs and RE-RAISES, unlike every other
operation of the manager. -/
def cache_increment (b : CacheBackend) (ns key : String) :
    Except PyExc (Int × CacheBackend) :=
  match b with
  | .up store counters =>
    let k := build_key ns key
    let cur := ((counters.find? (fun e => e.1 = k)).map (fun e => e.2)).getD 0
    .ok (cur + 1, .up store ((k, cur + 1) :: counters.filter (fun e => e.1 ≠ k)))
  | .down => .error .operationalError

/-- An uploaded file: original name and content bytes. -/
structure FileUpload where
  filename : String
  content : List Nat
  deriving DecidableEq, Repr

/-- The uploading user (fields create_document uses). -/
structure UploadUser where
  id : Nat
  tenant_id : Nat
  deriving DecidableEq, Repr

/-- Application state seen by the upload path: the documents table, the
blob store, and the uuid source (uuid4 collisions are impossible for the
purposes of the path-freshness argument, so uuid draws are a counter). -/
structure AppState where
  documents : List Document
  blobs : List (StoragePath × List Nat)
  next_uuid : Nat
  deriving DecidableEq, Repr

/-- Split a character list on dots (the splitting both pathlib suffix and
str.split perform on a filename). -/
def split_dot : List Char → List (List Char)
  | [] => [[]]
  | c :: cs =>
    let r := split_dot cs
    if c = '.' then [] :: r
    else
      match r with
      | [] => [[c]]
      | h :: t => (c :: h) :: t

/-- ASCII lowercasing of one character (str.lower on filenames). -/
def char_lower (c : Char) : Char :=
  if 'A' ≤ c ∧ c ≤ 'Z' then Char.ofNat (c.toNat + 32) else c

/-- ASCII lowercasing of a character list. -/
def lower_str (l : List Char) : List Char :=
  l.map char_lower

/-- Extension of a filename, modelling pathlib suffix for ordinary names:
the last dot-separated part with its dot, empty when there is no usable
extension. -/
def file_suffix (s : String) : List Char :=
  let parts := split_dot s.toList
  if parts.length < 2 then []
  else if parts.getLastD [] = [] then []
  else if parts.dropLast.all (fun q => q = []) then []
  else '.' :: parts.getLastD []

/-- validate_file_extension from storage.py: the lowercased suffix must be
one of settings.allowed_extensions (.pdf, .docx, .txt, .md). -/
def validate_file_extension (filename : String) : Bool :=
  lower_str (file_suffix filename) ∈
    [".pdf".toList, ".docx".toList, ".txt".toList, ".md".toList]

/-- compute_file_hash from storage.py: the SHA256 digest of the content.
Modelled as the identity on the byte list: an injective digest, which is
the property the dedup comparison relies on. -/
def compute_file_hash (content : List Nat) : List Nat :=
  content

/-- generate_file_path from storage.py: a fresh uuid prefixed to the
original filename under the tenant partition, collision-free by the uuid
component. -/
def generate_file_path (tenant_id : Nat) (filename : String) (uuid : Nat) : StoragePath :=
  { tenant_id := tenant_id, uuid := uuid, filename := filename }

/-- DocumentService._classify_document_type from service.py: decided by
the extension (the mime type consulted by the source is itself guessed
from the extension by mimetypes, so the extension determines the answer).
-/
def classify_document_type (filename : String) : DocumentType :=
  let ext := (split_dot (lower_str filename.toList)).getLastD []
  if ext = "pdf".toList then .pdf
  else if ext = "doc".toList ∨ ext = "docx".toList then .word
  else if ext = "txt".toList then .text
  else if ext = "md".toList ∨ ext = "markdown".toList then .markdown
  else .other

instance {ε α : Type} [DecidableEq ε] [DecidableEq α] : DecidableEq (Except ε α) :=
  fun a b =>
    match a, b with
    | .ok x, .ok y => if h : x = y then .isTrue (by rw [h]) else .isFalse (by simp [h])
    | .error x, .error y => if h : x = y then .isTrue (by rw [h]) else .isFalse (by simp [h])
    | .ok _, .error _ => .isFalse (by simp)
    | .error _, .ok _ => .isFalse (by simp)

/-- Outcome of create_document: the returned document or the propagated
exception, the duplicate detected by the content-hash query (service.py
lines 75-91: logged, nothing else), and the resulting state. -/
structure CreateOutcome where
  result : Except PyExc Document
  duplicate_of : Option Nat
  state : AppState
  deriving DecidableEq, Repr

/-- The rows the dedup query of create_document selects: same tenant,
same content hash, not soft-deleted (service.py lines 76-84). -/
def dedup_matches (st : AppState) (tenant : Nat) (file_hash : List Nat) : List Document :=
  st.documents.filter (fun d =>
    d.tenant_id = tenant && d.file_hash = some file_hash && d.is_deleted = false)

/-- result.scalar_one_or_none() on the dedup query: None for zero rows,
the row for exactly one, and MultipleResultsFound raised for two or more
rows — reachable here, since duplicate uploads are allowed and file_hash
carries no unique index. -/
def scalar_one_or_none (rows : List Document) : Except PyExc (Option Document) :=
  match rows with
  | [] => .ok none
  | [d] => .ok (some d)
  | _ => .error .multipleResultsFound

/-- DocumentService.create_document from service.py (lines 32-134):
validate extension and size; hash the content; run the dedup query by
(tenant, hash, not deleted) through scalar_one_or_none — a result of two
or more rows raises MultipleResultsFound there, before any blob save or
row insert, and a single row is only logged; then save the blob under a
fresh path, insert the document row in pending status and commit; then
enqueue the processing job with NO exception handling around the .delay
call, so an unavailable queue raises after the commit. -/
def create_document (st : AppState) (file : FileUpload) (title : String)
    (user : UploadUser) (now : Nat) (enqueue_ok : Bool) : CreateOutcome :=
  if !validate_file_extension file.filename then
    { result := .error .badRequest, duplicate_of := none, state := st }
  else if 10 * 1024 * 1024 < file.content.length then
    { result := .error .badRequest, duplicate_of := none, state := st }
  else if file.content.length = 0 then
    { result := .error .badRequest, duplicate_of := none, state := st }
  else
    match scalar_one_or_none (dedup_matches st user.tenant_id (compute_file_hash file.content)) with
    | .error e =>
      -- the dedup query itself raised: nothing was saved or committed
      { result := .error e, duplicate_of := none, state := st }
    | .ok existing_doc =>
      let file_path := generate_file_path user.tenant_id file.filename st.next_uuid
      let document : Document :=
        { id := st.next_uuid + 1, title := title, filename := file.filename,
          file_path := file_path, file_size := file.content.length,
          file_hash := some (compute_file_hash file.content),
          document_type := classify_document_type file.filename,
          status := .pending,
          processing_started_at := none, processing_completed_at := none,
          error_message := none, text_content := none, page_count := none,
          is_deleted := false, tenant_id := user.tenant_id, created_at := now }
      let st2 : AppState :=
        { documents := st.documents ++ [document],
          blobs := (file_path, file.content) :: st.blobs,
          next_uuid := st.next_uuid + 2 }
      if enqueue_ok then
        { result := .ok document, duplicate_of := existing_doc.map (fun d => d.id), state := st2 }
      else
        -- process_document.delay raised (queue unavailable): the commit has
        -- already happened, the exception propagates to the caller
        { result := .error .operationalError, duplicate_of := existing_doc.map (fun d => d.id), state := st2 }

/-! Concrete fixtures used by counterexamples and witnesses. -/

/-- A minimal document fixture. -/
def mkDoc (i t : Nat) (s : DocumentStatus) : Document :=
  { id := i, title := "doc", filename := "doc.txt", file_path := ⟨1, 0, "doc.txt"⟩,
    file_size := 2, file_hash := some [104, 105], document_type := .text,
    status := s, processing_started_at := none, processing_completed_at := none,
    error_message := none, text_content := none, page_count := none,
    is_deleted := false, tenant_id := 1, created_at := t }

/-- A benign environment: storage readable, text decodes, no fault. -/
def envBenign : ExtractEnv :=
  { storage_get := some [104, 105], pdf_text := "", docx_text := "",
    utf8_decode := some "hi", pdf_page_count := none, body_fault := none }

/-- An environment whose pipeline body raises on every delivery. -/
def envFault : ExtractEnv :=
  { envBenign with body_fault := some .runtimeError }

/-- An empty application state. -/
def emptyState : AppState :=
  { documents := [], blobs := [], next_uuid := 0 }

/-- A small text upload fixture. -/
def fileTxt : FileUpload :=
  { filename := "notes.txt", content := [104, 105] }

/-- An uploading user fixture. -/
def userA : UploadUser :=
  { id := 7, tenant_id := 1 }

/-! Claim theorems. -/

/-- Claim C9 counterexample: cache unavailability makes increment raise
(cache.py line 203 re-raises) instead of returning the cache-miss
equivalent 0, so not every cache operation fails open as the claim
states. -/
theorem C9_increment_raises_counterexample :
    cache_increment .down "rl" "user1:default" = .error .operationalError := rfl

/-- Claim C9 (amended): on an unavailable backend, get, set, delete,
invalidate_namespace and exists fail open with the cache-miss-equivalent
results None, false, false, 0 and false, while increment alone logs and
re-raises the backend error to its caller. -/
theorem C9_amended_fail_open_except_increment (ns key value : String) :
    cache_get .down ns key = none ∧
    cache_set .down ns key value = (false, .down) ∧
    cache_delete .down ns key = (false, .down) ∧
    invalidate_namespace .down ns = (0, .down) ∧
    cache_exists .down ns key = false ∧
    cache_increment .down ns key = .error .operationalError :=
  ⟨rfl, rfl, rfl, rfl, rfl, rfl⟩

/-- Claim C6 counterexample: a cursor string that decodes to a JSON array
(for instance W10=, the base64 of a two-character array literal) passes
decode_cursor, and then the .get call on the non-dict value raises
AttributeError, which the except-ValueError-only handler of execute_cursor
lets escape to the caller of the listing. -/
theorem C6_nondict_cursor_raises :
    cursor_clause (some (some (.jarr []))) = .error .attributeError := rfl

/-- Claim C6 (amended): a cursor string on which the base64/JSON decoding
itself fails is treated as start-from-beginning — cursor_clause yields no
filter and no error — and a cursor decoding to a JSON object also never
raises; only a cursor decoding to a non-object JSON value raises
(AttributeError), as the counterexample shows. -/
theorem C6_amended_decode_failure_safe :
    cursor_clause (some none) = .ok .noFilter ∧
    ∀ fields : List (String × PyJson),
      ∃ f, cursor_clause (some (some (.jobj fields))) = .ok f := by
  refine ⟨rfl, fun fields => ?_⟩
  unfold cursor_clause decode_cursor dict_get
  dsimp only
  split
  · exact ⟨_, rfl⟩
  · exact ⟨_, rfl⟩

/-- Claim C7 counterexample: with the queue unavailable the upload request
does NOT succeed — create_document propagates the enqueue error — even
though the document row was already committed in pending status. -/
theorem C7_enqueue_failure_propagates :
    (create_document emptyState fileTxt "t" userA 0 false).result
        = .error .operationalError ∧
    ((create_document emptyState fileTxt "t" userA 0 false).state.documents.map
      (fun d => d.status)) = [.pending] := by decide

/-- Claim C7 (amended): when document creation reaches its commit — that
is, the dedup query did not itself raise, which requires at most one
active same-hash row in the tenant — and enqueueing then fails, the
document row remains committed in pending status (the commit precedes the
.delay call), but the enqueue exception propagates to the caller of
create_document: the upload request fails. -/
theorem C7_amended_commit_then_raise (st : AppState) (file : FileUpload)
    (title : String) (user : UploadUser) (now : Nat)
    (hext : validate_file_extension file.filename = true)
    (hbig : file.content.length ≤ 10 * 1024 * 1024)
    (hpos : file.content.length ≠ 0)
    (hdedup : (dedup_matches st user.tenant_id (compute_file_hash file.content)).length ≤ 1) :
    (create_document st file title user now false).result = .error .operationalError ∧
    ∃ d, (create_document st file title user now false).state.documents
        = st.documents ++ [d] ∧ d.status = .pending ∧ d.filename = file.filename := by
  have hv : (!validate_file_extension file.filename) = false := by rw [hext]; rfl
  unfold create_document
  rw [hv]
  rw [if_neg (by simp), if_neg (Nat.not_lt.mpr hbig), if_neg hpos]
  cases hm : dedup_matches st user.tenant_id (compute_file_hash file.content) with
  | nil => exact ⟨rfl, _, rfl, rfl, rfl⟩
  | cons d0 tl =>
    cases tl with
    | nil => exact ⟨rfl, _, rfl, rfl, rfl⟩
    | cons d1 tl2 =>
      rw [hm] at hdedup
      simp at hdedup

/-- Witness for the amended claim C7 at a concrete upload. -/
theorem C7_amended_witness :
    (create_document emptyState fileTxt "t" userA 0 false).result = .error .operationalError ∧
    ∃ d, (create_document emptyState fileTxt "t" userA 0 false).state.documents
        = emptyState.documents ++ [d] ∧ d.status = .pending ∧ d.filename = fileTxt.filename :=
  C7_amended_commit_then_raise emptyState fileTxt "t" userA 0
    (by decide) (by decide) (by decide) (by decide)

/-- Claim C3 counterexample: when the document does not exist, the first
delivery does NOT fail fatally: the ValueError goes through the generic
failure handler, the Task record ends in retry status with retry_count 1,
and a retry is scheduled with the 120-second backoff. -/
theorem C3_not_found_retries_counterexample :
    (process_document_attempt 11 50 envBenign { document := none, tasks := [] }).result
        = .retryScheduled 120 .valueError ∧
    ((process_document_attempt 11 50 envBenign { document := none, tasks := [] }).state.tasks.map
      (fun t => (t.status, t.retry_count))) = [(.retry, 1)] := by decide

/-- The Task row as first inserted by a delivery (column defaults applied). -/
def startedRow (req_id : Nat) : TaskRow :=
  { task_id := req_id, status := .started, progress := 0, retry_count := 0,
    max_retries := 3, error := none, completed_at := none }

/-- A Task row after the retry branch of the except handler ran once. -/
def retriedRow (e : PyExc) (now : Nat) (t : TaskRow) : TaskRow :=
  { t with status := .retry, error := some e, completed_at := some now, retry_count := 1 }

/-- Claim C3 (amended): document-not-found is handled like any other
pipeline failure: on a first delivery the ValueError reaches the generic
except handler, which marks the Task failure then retry with retry_count
1 and schedules a redelivery with the 60 * 2 ^ 1 backoff; no failure
condition skips the retry mechanism. -/
theorem C3_amended_not_found_generic_failure (req_id now : Nat) (env : ExtractEnv)
    (tasks : List TaskRow)
    (hfresh : tasks.all (fun t => t.task_id ≠ req_id) = true) :
    (process_document_attempt req_id now env { document := none, tasks := tasks }).result
        = .retryScheduled 120 .valueError ∧
    ∃ t ∈ (process_document_attempt req_id now env
        { document := none, tasks := tasks }).state.tasks,
      t.task_id = req_id ∧ t.status = .retry ∧ t.retry_count = 1 := by
  have hany : (tasks.any (fun t => t.task_id = req_id)) = false := by
    rw [List.any_eq_false]
    intro t ht
    have := List.all_eq_true.mp hfresh t ht
    simpa using this
  have hrun : process_document_attempt req_id now env { document := none, tasks := tasks }
      = { result := .retryScheduled 120 .valueError,
          state := { document := none,
                     tasks := updateTask (tasks ++ [startedRow req_id]) req_id
                       (fun t => retriedRow .valueError now t) },
          docWrites := [] } := by
    unfold process_document_attempt
    rw [hany]
    rfl
  rw [hrun]
  refine ⟨rfl, ?_⟩
  refine ⟨retriedRow .valueError now (startedRow req_id), ?_, rfl, rfl, rfl⟩
  simp [updateTask, startedRow]

/-- Witness for the amended claim C3 at a concrete delivery. -/
theorem C3_amended_witness :
    (process_document_attempt 11 50 envBenign { document := none, tasks := [] }).result
        = .retryScheduled 120 .valueError ∧
    ∃ t ∈ (process_document_attempt 11 50 envBenign
        { document := none, tasks := [] }).state.tasks,
      t.task_id = 11 ∧ t.status = .retry ∧ t.retry_count = 1 :=
  C3_amended_not_found_generic_failure 11 50 envBenign [] (by decide)

/-- A Task row after a progress checkpoint commit. -/
def progressRow (p : Nat) (t : TaskRow) : TaskRow :=
  { t with progress := p }

/-- A Task row after the success commit. -/
def successRow (now : Nat) (t : TaskRow) : TaskRow :=
  { t with status := .success, progress := 100, completed_at := some now }

/-- A document after the final completion commit with null text. -/
def completedDoc (doc : Document) (now : Nat) (pc : Option Nat) : Document :=
  { doc with status := .completed, processing_started_at := some now,
             processing_completed_at := some now, text_content := none, page_count := pc }

/-- Claim C4: when the storage read inside text extraction raises, the
failure is absorbed inside extract_text_from_file: the attempt still
succeeds, the document transitions to completed with null text_content,
and neither the failed nor the retry path is taken. -/
theorem C4_extraction_failure_completes (req_id now : Nat) (env : ExtractEnv)
    (doc : Document) (tasks : List TaskRow)
    (hfresh : tasks.all (fun t => t.task_id ≠ req_id) = true)
    (hraise : env.storage_get = none)
    (hnofault : env.body_fault = none) :
    (process_document_attempt req_id now env { document := some doc, tasks := tasks }).result
        = .success ∧
    ∃ d, (process_document_attempt req_id now env
          { document := some doc, tasks := tasks }).state.document = some d ∧
      d.status = .completed ∧ d.text_content = none := by
  have hany : (tasks.any (fun t => t.task_id = req_id)) = false := by
    rw [List.any_eq_false]
    intro t ht
    have := List.all_eq_true.mp hfresh t ht
    simpa using this
  have hrun : process_document_attempt req_id now env { document := some doc, tasks := tasks }
      = { result := .success,
          state :=
            { document := some (completedDoc doc now
                (if doc.document_type = .pdf then env.pdf_page_count else none)),
              tasks := updateTask (updateTask (updateTask (updateTask
                (tasks ++ [startedRow req_id]) req_id (progressRow 10))
                req_id (progressRow 50)) req_id (progressRow 70)) req_id (successRow now) },
          docWrites := (if doc.status = .processing then []
              else [(doc.status, DocumentStatus.processing)])
            ++ [(DocumentStatus.processing, DocumentStatus.completed)] } := by
    unfold process_document_attempt extract_text_from_file
    rw [hany, hnofault, hraise]
    rfl
  rw [hrun]
  exact ⟨rfl, _, rfl, rfl, rfl⟩

/-- Witness for claim C4 at a concrete delivery: a pending document whose
storage read raises still completes with null text. -/
theorem C4_witness :
    (process_document_attempt 12 60 { envBenign with storage_get := none }
        { document := some (mkDoc 1 5 .pending), tasks := [] }).result = .success ∧
    ∃ d, (process_document_attempt 12 60 { envBenign with storage_get := none }
          { document := some (mkDoc 1 5 .pending), tasks := [] }).state.document = some d ∧
      d.status = .completed ∧ d.text_content = none :=
  C4_extraction_failure_completes 12 60 { envBenign with storage_get := none }
    (mkDoc 1 5 .pending) [] (by decide) rfl rfl

/-- Claim C2 is violated by the code: with a pipeline body that raises on
every delivery, the first delivery marks the document failed and schedules
a retry with retry_count 1 — but the second delivery of the same Celery
task id dies inserting a duplicate Task row (UNIQUE task_id), and the
except handler then raises TypeError comparing the never-flushed None
retry_count/max_retries attributes.  The chain stops after 2 attempts with
the Task stuck at retry status and retry_count 1: it never reaches
retry_count = max_retries = 3, and never performs max_retries + 1 = 4
attempts. -/
theorem C2_retry_chain_breaks :
    (redeliver 21 100 envFault 10 { document := some (mkDoc 1 5 .pending), tasks := [] }).1 = 2 ∧
    (redeliver 21 100 envFault 10 { document := some (mkDoc 1 5 .pending), tasks := [] }).2.2
        = .raised .typeError ∧
    ((redeliver 21 100 envFault 10 { document := some (mkDoc 1 5 .pending), tasks := [] }).2.1.tasks.map
        (fun t => (t.status, t.retry_count, t.max_retries))) = [(.retry, 1, 3)] ∧
    ((redeliver 21 100 envFault 10 { document := some (mkDoc 1 5 .pending), tasks := [] }).2.1.document.map
        (fun d => d.status)) = some .failed := by decide

/-- Claim C8 is violated by the code: a rerun of the job after a retryable
failure does not update the existing Task record — _process_document_async
constructs a NEW Task object with the same task_id on every delivery, the
unique index rejects its insert, and the attempt dies (TypeError on the
None attributes), leaving the first delivery's record byte-for-byte
untouched. -/
theorem C8_second_attempt_duplicate_task_row :
    (process_document_attempt 21 100 envFault
        { document := some (mkDoc 1 5 .pending), tasks := [] }).result
      = .retryScheduled 120 .runtimeError ∧
    (process_document_attempt 21 100 envFault
        { document := some (mkDoc 1 5 .pending), tasks := [] }).state.tasks.length = 1 ∧
    (process_document_attempt 21 100 envFault
      (process_document_attempt 21 100 envFault
        { document := some (mkDoc 1 5 .pending), tasks := [] }).state).result
      = .raised .typeError ∧
    (process_document_attempt 21 100 envFault
      (process_document_attempt 21 100 envFault
        { document := some (mkDoc 1 5 .pending), tasks := [] }).state).state.tasks
      = (process_document_attempt 21 100 envFault
        { document := some (mkDoc 1 5 .pending), tasks := [] }).state.tasks := by decide

/-- Claim C1 counterexample: the bulk reprocess action on a completed
document performs the status change completed to pending (router_v2.py
lines 181-185 admit both failed and completed), which is not an edge of
the section 4.1 state machine — precisely the transition the claim says
never happens. -/
theorem C1_reprocess_completed_counterexample :
    (bulk_document_action .reprocess 1 [1] [mkDoc 1 5 .completed]).2.2
        = [(.completed, .pending)] ∧
    specEdge .completed .pending = false := by decide

/-- Any status other than processing may step to processing (pipeline job
start). -/
theorem amendedEdge_proc (a : DocumentStatus) (h : a ≠ .processing) :
    amendedEdge a .processing = true := by
  cases a <;> first | exact absurd rfl h | decide

/-- The per-document body of a bulk action only performs amended edges. -/
theorem bulk_apply_writes_ok (a : BulkAction) (d : Document) :
    ∀ p ∈ statusWrite d (bulk_apply a d).1, amendedEdge p.1 p.2 = true := by
  intro p hp
  cases a <;> cases hd : d.status <;> cases hdel : d.is_deleted <;>
      simp [bulk_apply, statusWrite, hd, hdel] at hp <;>
      subst hp <;> decide

/-- The trace after one loop iteration: unchanged, or extended by the
status write of one bulk_apply. -/
theorem bulk_step_trace (action : BulkAction)
    (acc : List Document × BulkResult × List (DocumentStatus × DocumentStatus))
    (i : Nat) :
    (bulk_step action acc i).2.2 = acc.2.2 ∨
    ∃ d, (bulk_step action acc i).2.2 = acc.2.2 ++ statusWrite d (bulk_apply action d).1 := by
  unfold bulk_step
  cases hfind : acc.1.find? (fun d => d.id = i) with
  | none => exact Or.inl rfl
  | some d =>
    refine Or.inr ⟨d, ?_⟩
    dsimp only
    split <;> rfl

/-- The per-id loop of the bulk endpoint preserves the amended-edge
invariant of the trace. -/
theorem bulk_fold_writes_ok (action : BulkAction) (ids : List Nat) :
    ∀ acc, (∀ p ∈ acc.2.2, amendedEdge p.1 p.2 = true) →
      ∀ p ∈ (ids.foldl (bulk_step action) acc).2.2, amendedEdge p.1 p.2 = true := by
  induction ids with
  | nil => exact fun acc hacc p hp => hacc p hp
  | cons i rest ih =>
    intro acc hacc
    rw [List.foldl_cons]
    apply ih
    intro p hp
    rcases bulk_step_trace action acc i with h | ⟨d, h⟩
    · rw [h] at hp
      exact hacc p hp
    · rw [h] at hp
      rcases List.mem_append.mp hp with h2 | h2
      · exact hacc p h2
      · exact bulk_apply_writes_ok action d p h2

/-- The except-handler produces no document write when the Python document
local was never set. -/
theorem pipeline_except_no_doc (e : PyExc) (now req_id : Nat) (ti : Bool)
    (rc mr : Option Nat) (st : PipelineState) :
    (pipeline_except e now req_id false ti rc mr st).docWrites = [] := by
  unfold pipeline_except
  cases hlt : pyLt rc mr with
  | error te => rfl
  | ok b => cases b <;> rfl

/-- The except-handler on a fetched document in processing status only
writes the edge processing to failed. -/
theorem pipeline_except_processing (e : PyExc) (now req_id : Nat) (ti : Bool)
    (rc mr : Option Nat) (st : PipelineState) (d : Document)
    (hdoc : st.document = some d) (hst : d.status = .processing) :
    ∀ p ∈ (pipeline_except e now req_id true ti rc mr st).docWrites,
      amendedEdge p.1 p.2 = true := by
  intro p hp
  unfold pipeline_except at hp
  rw [hdoc] at hp
  cases hlt : pyLt rc mr with
  | error te =>
    rw [hlt] at hp
    simp at hp
  | ok b =>
    rw [hlt] at hp
    cases b <;> simp [hst] at hp <;> (subst hp; decide)

/-- Every committed document-status change of one pipeline delivery is an
amended edge. -/
theorem pipeline_writes_ok (req_id now : Nat) (env : ExtractEnv) (st : PipelineState) :
    ∀ p ∈ (process_document_attempt req_id now env st).docWrites,
      amendedEdge p.1 p.2 = true := by
  intro p hp
  unfold process_document_attempt at hp
  split at hp
  · rw [pipeline_except_no_doc] at hp
    exact absurd hp (List.not_mem_nil p)
  · cases hdoc : st.document with
    | none =>
      simp only [hdoc] at hp
      rw [pipeline_except_no_doc] at hp
      exact absurd hp (List.not_mem_nil p)
    | some doc =>
      simp only [hdoc] at hp
      by_cases hs : doc.status = DocumentStatus.processing
      · rw [if_pos hs] at hp
        cases hbf : env.body_fault with
        | some e =>
          simp only [hbf, List.nil_append] at hp
          exact pipeline_except_processing e now req_id true (some 0) (some 3) _ _ rfl rfl p hp
        | none =>
          simp only [hbf, List.nil_append] at hp
          rw [List.mem_singleton] at hp
          subst hp
          decide
      · rw [if_neg hs] at hp
        cases hbf : env.body_fault with
        | some e =>
          simp only [hbf] at hp
          rcases List.mem_append.mp hp with h | h
          · rw [List.mem_singleton] at h
            subst h
            exact amendedEdge_proc doc.status hs
          · exact pipeline_except_processing e now req_id true (some 0) (some 3) _ _ rfl rfl p h
        | none =>
          simp only [hbf] at hp
          rcases List.mem_append.mp hp with h | h
          · rw [List.mem_singleton] at h
            subst h
            exact amendedEdge_proc doc.status hs
          · rw [List.mem_singleton] at h
            subst h
            decide

/-- The sweep only writes the edge processing to failed. -/
theorem sweep_writes_ok (now : Nat) (docs : List Document) :
    ∀ p ∈ (cleanup_failed_documents now docs).2, amendedEdge p.1 p.2 = true := by
  intro p hp
  unfold cleanup_failed_documents at hp
  simp only [List.mem_map] at hp
  obtain ⟨d, _, hpd⟩ := hp
  rw [← hpd]
  decide

/-- Claim C1 (amended): every committed document-status change performed
by a bulk action, a pipeline delivery, or the stuck-document sweep lies in
the amended edge relation: any status to processing (the pipeline sets the
fetched document to processing unconditionally), processing to completed
and processing to failed (pipeline and sweep), failed to pending AND
completed to pending (bulk reprocess admits both), and any status to
archived (bulk archive does not check the current status).  The original
claim's edge set (specEdge) excludes completed to pending and the
non-terminal-to-archived edges, and the counterexample shows the code
taking completed to pending. -/
theorem C1_amended_transition_relation :
    (∀ (action : BulkAction) (tenant : Nat) (ids : List Nat) (docs : List Document),
      ∀ p ∈ (bulk_document_action action tenant ids docs).2.2,
        amendedEdge p.1 p.2 = true) ∧
    (∀ (req_id now : Nat) (env : ExtractEnv) (st : PipelineState),
      ∀ p ∈ (process_document_attempt req_id now env st).docWrites,
        amendedEdge p.1 p.2 = true) ∧
    (∀ (now : Nat) (docs : List Document),
      ∀ p ∈ (cleanup_failed_documents now docs).2,
        amendedEdge p.1 p.2 = true) := by
  refine ⟨?_, pipeline_writes_ok, sweep_writes_ok⟩
  intro action tenant ids docs p hp
  unfold bulk_document_action at hp
  exact bulk_fold_writes_ok action ids _ (by intro q hq; exact absurd hq (List.not_mem_nil q)) p hp

/-- Witness for the amended claim C1: the completed-to-pending edge the
bulk reprocess action actually takes is in the amended relation. -/
theorem C1_amended_witness : amendedEdge .completed .pending = true :=
  C1_amended_transition_relation.1 .reprocess 1 [1] [mkDoc 1 5 .completed]
    (.completed, .pending) (by decide)

/-- The document row create_document commits on a successful validation
pass (what the pending insert at service.py lines 105-121 produces). -/
def created_doc (st : AppState) (file : FileUpload) (title : String)
    (user : UploadUser) (now : Nat) : Document :=
  { id := st.next_uuid + 1, title := title, filename := file.filename,
    file_path := generate_file_path user.tenant_id file.filename st.next_uuid,
    file_size := file.content.length,
    file_hash := some (compute_file_hash file.content),
    document_type := classify_document_type file.filename, status := .pending,
    processing_started_at := none, processing_completed_at := none,
    error_message := none, text_content := none, page_count := none,
    is_deleted := false, tenant_id := user.tenant_id, created_at := now }

/-- Evaluation of create_document on a valid upload with a working queue
and a dedup query matching at most one row (so scalar_one_or_none does
not raise): the dedup lookup result, the committed row, the saved blob,
two uuid draws. -/
theorem create_document_run (st : AppState) (file : FileUpload) (title : String)
    (user : UploadUser) (now : Nat)
    (hext : validate_file_extension file.filename = true)
    (hbig : file.content.length ≤ 10 * 1024 * 1024)
    (hpos : file.content.length ≠ 0)
    (hdedup : (dedup_matches st user.tenant_id (compute_file_hash file.content)).length ≤ 1) :
    create_document st file title user now true
      = { result := .ok (created_doc st file title user now),
          duplicate_of := ((dedup_matches st user.tenant_id
              (compute_file_hash file.content)).head?).map (fun d => d.id),
          state := { documents := st.documents ++ [created_doc st file title user now],
                     blobs := (generate_file_path user.tenant_id file.filename st.next_uuid,
                               file.content) :: st.blobs,
                     next_uuid := st.next_uuid + 2 } } := by
  have hv : (!validate_file_extension file.filename) = false := by rw [hext]; rfl
  unfold create_document
  rw [hv]
  rw [if_neg (by simp), if_neg (Nat.not_lt.mpr hbig), if_neg hpos]
  cases hm : dedup_matches st user.tenant_id (compute_file_hash file.content) with
  | nil => rfl
  | cons d0 tl =>
    cases tl with
    | nil => rfl
    | cons d1 tl2 =>
      rw [hm] at hdedup
      simp at hdedup

/-- Claim C10 counterexample: the claim fails once copies accumulate.
After two identical uploads the tenant holds two active same-hash rows,
so a third byte-identical upload — again "two uploads of byte-identical
content into the same tenant", taking the second and third — is rejected
rather than created: the dedup query returns two rows and
scalar_one_or_none raises MultipleResultsFound (service.py line 85) before
any blob save or row insert, leaving the state unchanged. -/
theorem C10_third_upload_rejected_counterexample :
    (create_document (create_document (create_document emptyState fileTxt "a" userA 1 true).state
        fileTxt "b" userA 2 true).state fileTxt "c" userA 3 true).result
      = .error .multipleResultsFound ∧
    (create_document (create_document (create_document emptyState fileTxt "a" userA 1 true).state
        fileTxt "b" userA 2 true).state fileTxt "c" userA 3 true).state
      = (create_document (create_document emptyState fileTxt "a" userA 1 true).state
        fileTxt "b" userA 2 true).state := by decide

/-- Claim C10 (amended): uploading byte-identical content twice into a
tenant that holds no other active row with that content hash makes the
second create_document call detect the duplicate through the stored hash
(the dedup query returns the first upload's row), yet it still commits a
second, distinct document row — fresh id, fresh storage path — and saves
a second blob; that duplicate is neither rejected nor coalesced.  Once
two active same-hash copies exist, however, a further identical upload is
rejected: the dedup query's scalar_one_or_none raises
MultipleResultsFound before any blob save or row insert, as the
counterexample shows. -/
theorem C10_duplicate_upload_new_row (st : AppState) (file : FileUpload)
    (title1 title2 : String) (user : UploadUser) (now1 now2 : Nat)
    (hext : validate_file_extension file.filename = true)
    (hbig : file.content.length ≤ 10 * 1024 * 1024)
    (hpos : file.content.length ≠ 0)
    (hfresh : dedup_matches st user.tenant_id (compute_file_hash file.content) = []) :
    ∃ d1 d2,
      (create_document st file title1 user now1 true).result = .ok d1 ∧
      (create_document (create_document st file title1 user now1 true).state
          file title2 user now2 true).result = .ok d2 ∧
      ((create_document (create_document st file title1 user now1 true).state
          file title2 user now2 true).duplicate_of).isSome = true ∧
      d1.id ≠ d2.id ∧
      d1.file_path ≠ d2.file_path ∧
      d1 ∈ (create_document (create_document st file title1 user now1 true).state
          file title2 user now2 true).state.documents ∧
      d2 ∈ (create_document (create_document st file title1 user now1 true).state
          file title2 user now2 true).state.documents ∧
      (d1.file_path, file.content) ∈ (create_document
          (create_document st file title1 user now1 true).state
          file title2 user now2 true).state.blobs ∧
      (d2.file_path, file.content) ∈ (create_document
          (create_document st file title1 user now1 true).state
          file title2 user now2 true).state.blobs := by
  have h1 := create_document_run st file title1 user now1 hext hbig hpos
    (by rw [hfresh]; simp)
  rw [h1]
  have hs1 : dedup_matches
      { documents := st.documents ++ [created_doc st file title1 user now1],
        blobs := (generate_file_path user.tenant_id file.filename st.next_uuid,
                  file.content) :: st.blobs,
        next_uuid := st.next_uuid + 2 } user.tenant_id (compute_file_hash file.content)
      = [created_doc st file title1 user now1] := by
    unfold dedup_matches at hfresh ⊢
    dsimp only
    rw [List.filter_append, hfresh]
    simp [created_doc]
  have h2 := create_document_run
    { documents := st.documents ++ [created_doc st file title1 user now1],
      blobs := (generate_file_path user.tenant_id file.filename st.next_uuid,
                file.content) :: st.blobs,
      next_uuid := st.next_uuid + 2 } file title2 user now2 hext hbig hpos
    (by rw [hs1]; simp)
  rw [h2]
  refine ⟨created_doc st file title1 user now1, created_doc _ file title2 user now2, rfl, rfl,
    ?_, ?_, ?_, ?_, ?_, ?_, ?_⟩
  · rw [hs1]
    rfl
  · simp [created_doc]
  · simp [created_doc, generate_file_path]
  · exact List.mem_append_left _ (List.mem_append_right _ (List.mem_singleton_self _))
  · exact List.mem_append_right _ (List.mem_singleton_self _)
  · exact List.mem_cons_of_mem _ (List.mem_cons_self _ _)
  · exact List.mem_cons_self _ _

/-- Witness for the amended claim C10 at a concrete pair of identical
uploads into a tenant with no prior copy. -/
theorem C10_witness :
    ∃ d1 d2,
      (create_document emptyState fileTxt "a" userA 1 true).result = .ok d1 ∧
      (create_document (create_document emptyState fileTxt "a" userA 1 true).state
          fileTxt "b" userA 2 true).result = .ok d2 ∧
      ((create_document (create_document emptyState fileTxt "a" userA 1 true).state
          fileTxt "b" userA 2 true).duplicate_of).isSome = true ∧
      d1.id ≠ d2.id ∧
      d1.file_path ≠ d2.file_path ∧
      d1 ∈ (create_document (create_document emptyState fileTxt "a" userA 1 true).state
          fileTxt "b" userA 2 true).state.documents ∧
      d2 ∈ (create_document (create_document emptyState fileTxt "a" userA 1 true).state
          fileTxt "b" userA 2 true).state.documents ∧
      (d1.file_path, fileTxt.content) ∈ (create_document
          (create_document emptyState fileTxt "a" userA 1 true).state
          fileTxt "b" userA 2 true).state.blobs ∧
      (d2.file_path, fileTxt.content) ∈ (create_document
          (create_document emptyState fileTxt "a" userA 1 true).state
          fileTxt "b" userA 2 true).state.blobs :=
  C10_duplicate_upload_new_row emptyState fileTxt "a" "b" userA 1 2
    (by decide) (by decide) (by decide) (by decide)

/-- Claim C5 counterexample: two documents share the created_at value 5 at
a page boundary with limit 1: the next-page filter is the strict
inequality created_at < 5 alone (the last_id tie-breaker encoded in the
cursor is never used by execute_cursor), so the second document is
excluded by its own page's cursor and end-to-end iteration yields only one
of the two ids — document 2 is skipped. -/
theorem C5_tie_skip_counterexample :
    ((paginate_from_start [mkDoc 1 5 .completed, mkDoc 2 5 .completed] 1).map
      (fun d => d.id)) = [1] ∧
    2 ∉ ((paginate_from_start [mkDoc 1 5 .completed, mkDoc 2 5 .completed] 1).map
      (fun d => d.id)) := by decide

/-- A sorted run whose keys are distinct is strictly descending. -/
theorem pairwiseGt_of_sorted_nodup {l : List Document}
    (hs : List.Sorted createdDesc l) (hnd : (l.map Document.created_at).Nodup) :
    l.Pairwise createdGt :=
  (List.Pairwise.and hs (List.pairwise_map.mp hnd)).imp
    (fun h => Nat.lt_of_le_of_ne h.1 (fun e => h.2 e.symm))

/-- Two permuted strictly-descending runs are equal. -/
theorem eq_of_perm_of_pairwiseGt {l1 l2 : List Document}
    (hp : l1.Perm l2) (h1 : l1.Pairwise createdGt) (h2 : l2.Pairwise createdGt) :
    l1 = l2 :=
  List.eq_of_perm_of_sorted hp h1 h2

/-- The sorted query result is a permutation of the filtered snapshot. -/
theorem sortedQuery_perm (docs : List Document) (c : Option CursorData) :
    (sortedQuery docs c).Perm (cursorQuery docs c) :=
  List.perm_insertionSort createdDesc (cursorQuery docs c)

/-- The cursor-filtered snapshot is a sublist of the snapshot. -/
theorem cursorQuery_sublist (docs : List Document) (c : Option CursorData) :
    (cursorQuery docs c).Sublist docs := by
  cases c with
  | none => exact List.Sublist.refl docs
  | some cd =>
    obtain ⟨lv, li, dir⟩ := cd
    cases dir <;> exact List.filter_sublist docs

/-- Distinct snapshot keys stay distinct in any sorted query result. -/
theorem sortedQuery_keys_nodup (docs : List Document) (c : Option CursorData)
    (hnd : (docs.map Document.created_at).Nodup) :
    ((sortedQuery docs c).map Document.created_at).Nodup := by
  have h1 : ((cursorQuery docs c).map Document.created_at).Nodup :=
    List.Nodup.sublist ((cursorQuery_sublist docs c).map Document.created_at) hnd
  exact List.Perm.nodup ((sortedQuery_perm docs c).map Document.created_at).symm h1

/-- With distinct snapshot keys the sorted query result is strictly
descending. -/
theorem sortedQuery_pairwiseGt (docs : List Document) (c : Option CursorData)
    (hnd : (docs.map Document.created_at).Nodup) :
    (sortedQuery docs c).Pairwise createdGt :=
  pairwiseGt_of_sorted_nodup
    (List.sorted_insertionSort createdDesc (cursorQuery docs c))
    (sortedQuery_keys_nodup docs c hnd)

/-- In a strictly descending run, the last element of any nonempty run
bounds every element from below. -/
theorem getLast_le_of_pairwise {l : List Document} (hp : l.Pairwise createdGt)
    {last : Document} (hl : l.getLast? = some last) :
    ∀ x ∈ l, last.created_at ≤ x.created_at := by
  induction l with
  | nil => cases hl
  | cons a t ih =>
    cases t with
    | nil =>
      intro x hx
      rcases List.mem_singleton.mp hx with rfl
      cases hl
      exact Nat.le_refl _
    | cons b t2 =>
      rw [List.getLast?_cons_cons] at hl
      intro x hx
      rcases List.mem_cons.mp hx with rfl | hx2
      · have hlast_mem : last ∈ b :: t2 := List.mem_of_mem_getLast? hl
        exact Nat.le_of_lt ((List.pairwise_cons.mp hp).1 last hlast_mem)
      · exact ih (List.pairwise_cons.mp hp).2 hl x hx2

/-- In a strictly descending run, filtering by strictly-less-than the key
of the last element of the first page is exactly dropping the page. -/
theorem filter_lt_getLast_take {T : List Document} (hp : T.Pairwise createdGt)
    (limit : Nat) {last : Document}
    (hlast : (T.take limit).getLast? = some last) :
    T.filter (fun d => decide (d.created_at < last.created_at)) = T.drop limit := by
  have hsplit := List.take_append_drop limit T
  have hpa : T.Pairwise createdGt := hp
  rw [← hsplit] at hpa
  have hcross := (List.pairwise_append.mp hpa).2.2
  have hlastmem : last ∈ T.take limit := List.mem_of_mem_getLast? hlast
  have htake_pw : (T.take limit).Pairwise createdGt :=
    List.Pairwise.sublist (List.take_sublist limit T) hp
  have h1 : (T.take limit).filter (fun d => decide (d.created_at < last.created_at)) = [] := by
    rw [List.filter_eq_nil_iff]
    intro x hx
    have hle := getLast_le_of_pairwise htake_pw hlast x hx
    simp [Nat.not_lt.mpr hle]
  have h2 : (T.drop limit).filter (fun d => decide (d.created_at < last.created_at))
      = T.drop limit := by
    rw [List.filter_eq_self]
    intro y hy
    have := hcross last hlastmem y hy
    simpa using this
  calc T.filter (fun d => decide (d.created_at < last.created_at))
      = (T.take limit ++ T.drop limit).filter
          (fun d => decide (d.created_at < last.created_at)) := by rw [hsplit]
    _ = T.drop limit := by rw [List.filter_append, h1, h2, List.nil_append]

/-- execute_cursor when the remainder fits on one page: all of it comes
back, has_next is false, no next cursor. -/
theorem execute_cursor_last (docs : List Document) (c : Option CursorData)
    (limit : Nat) (h : (sortedQuery docs c).length ≤ limit) :
    (execute_cursor docs c limit).1 = sortedQuery docs c ∧
    (execute_cursor docs c limit).2.1 = none := by
  have hts : (sortedQuery docs c).take (limit + 1) = sortedQuery docs c :=
    List.take_of_length_le (Nat.le_succ_of_le h)
  have hb : decide (limit < (sortedQuery docs c).length) = false := by
    simp [Nat.not_lt.mpr h]
  constructor <;> simp only [execute_cursor, hts, hb, Bool.false_eq_true, if_false]

/-- execute_cursor on a longer remainder: the page is the first limit rows
and the next cursor carries the sort value and id of its last row. -/
theorem execute_cursor_middle (docs : List Document) (c : Option CursorData)
    (limit : Nat) (h : limit < (sortedQuery docs c).length)
    {last : Document} (hlast : ((sortedQuery docs c).take limit).getLast? = some last) :
    (execute_cursor docs c limit).1 = (sortedQuery docs c).take limit ∧
    (execute_cursor docs c limit).2.1
      = some ⟨last.created_at, last.id, CursorDir.next⟩ := by
  have hts : ((sortedQuery docs c).take (limit + 1)).length = limit + 1 := by
    rw [List.length_take]
    omega
  have hb : decide (limit < ((sortedQuery docs c).take (limit + 1)).length) = true := by
    rw [hts]
    simp
  have htt : ((sortedQuery docs c).take (limit + 1)).take limit
      = (sortedQuery docs c).take limit := by
    rw [List.take_take]
    congr 1
    omega
  constructor <;> simp only [execute_cursor, hb, htt, hlast, if_true]

/-- Following the next cursor built from the last row of a full page
queries exactly the rest of the strictly descending remainder. -/
theorem sortedQuery_next_step (docs : List Document) (c : Option CursorData)
    (hnd : (docs.map Document.created_at).Nodup)
    (hdir : ∀ cd, c = some cd → cd.direction = CursorDir.next)
    (limit : Nat) (hlen : limit < (sortedQuery docs c).length)
    {last : Document} (hlast : ((sortedQuery docs c).take limit).getLast? = some last)
    (li : Nat) :
    sortedQuery docs (some ⟨last.created_at, li, CursorDir.next⟩)
      = (sortedQuery docs c).drop limit := by
  have hpT : (sortedQuery docs c).Pairwise createdGt := sortedQuery_pairwiseGt docs c hnd
  have hlastT : last ∈ sortedQuery docs c :=
    (List.take_sublist limit (sortedQuery docs c)).mem (List.mem_of_mem_getLast? hlast)
  have hfq : docs.filter (fun d => decide (d.created_at < last.created_at))
      = (cursorQuery docs c).filter (fun d => decide (d.created_at < last.created_at)) := by
    cases c with
    | none => rfl
    | some cd =>
      obtain ⟨lv, lid, dir⟩ := cd
      have hd := hdir ⟨lv, lid, dir⟩ rfl
      dsimp at hd
      subst hd
      have hlastQ : last ∈ cursorQuery docs (some ⟨lv, lid, CursorDir.next⟩) :=
        (sortedQuery_perm docs _).subset hlastT
      have hvlt : last.created_at < lv := by
        have := List.of_mem_filter hlastQ
        simpa using this
      show docs.filter (fun d => decide (d.created_at < last.created_at))
        = (docs.filter (fun d => decide (d.created_at < lv))).filter
            (fun d => decide (d.created_at < last.created_at))
      rw [List.filter_filter]
      refine List.filter_congr ?_
      intro a _
      by_cases hc : a.created_at < last.created_at
      · simp [hc, Nat.lt_trans hc hvlt]
      · simp [hc]
  have hTfilter : (sortedQuery docs c).filter
      (fun d => decide (d.created_at < last.created_at))
      = (sortedQuery docs c).drop limit :=
    filter_lt_getLast_take hpT limit hlast
  have hperm : (sortedQuery docs (some ⟨last.created_at, li, CursorDir.next⟩)).Perm
      ((sortedQuery docs c).drop limit) := by
    have p1 := sortedQuery_perm docs (some ⟨last.created_at, li, CursorDir.next⟩)
    have p2 : (cursorQuery docs (some ⟨last.created_at, li, CursorDir.next⟩))
        = docs.filter (fun d => decide (d.created_at < last.created_at)) := rfl
    rw [p2, hfq] at p1
    have p3 := List.Perm.filter (fun d => decide (d.created_at < last.created_at))
      (sortedQuery_perm docs c)
    rw [hTfilter] at p3
    exact p1.trans p3.symm
  exact eq_of_perm_of_pairwiseGt hperm
    (sortedQuery_pairwiseGt docs _ hnd)
    (List.Pairwise.sublist (List.drop_sublist limit _) hpT)

/-- Iterating the cursor pages from a next-direction (or absent) cursor
with distinct sort keys yields exactly the sorted remainder. -/
theorem paginate_all_eq (docs : List Document) (limit : Nat) (hl : 1 ≤ limit)
    (hnd : (docs.map Document.created_at).Nodup) :
    ∀ (fuel : Nat) (c : Option CursorData),
      (∀ cd, c = some cd → cd.direction = CursorDir.next) →
      (sortedQuery docs c).length < fuel →
      paginate_all docs limit fuel c = sortedQuery docs c := by
  intro fuel
  induction fuel with
  | zero => exact fun c _ hlen => absurd hlen (Nat.not_lt_zero _)
  | succ n ih =>
    intro c hdir hlen
    by_cases hcase : limit < (sortedQuery docs c).length
    · have hne : (sortedQuery docs c).take limit ≠ [] := by
        intro hnil
        have h2 : ((sortedQuery docs c).take limit).length = limit := by
          rw [List.length_take]
          omega
        rw [hnil] at h2
        simp at h2
        omega
      obtain ⟨last, hlast⟩ := Option.isSome_iff_exists.mp (List.getLast?_isSome.mpr hne)
      have hexec := execute_cursor_middle docs c limit hcase hlast
      have hstep := sortedQuery_next_step docs c hnd hdir limit hcase hlast last.id
      simp only [paginate_all]
      rw [hexec.2, hexec.1]
      dsimp only
      have hlen2 : (sortedQuery docs (some ⟨last.created_at, last.id, CursorDir.next⟩)).length < n := by
        rw [hstep, List.length_drop]
        omega
      rw [ih (some ⟨last.created_at, last.id, CursorDir.next⟩)
        (fun cd h => by cases h; rfl) hlen2]
      rw [hstep]
      exact List.take_append_drop limit (sortedQuery docs c)
    · have hexec := execute_cursor_last docs c limit (Nat.not_lt.mp hcase)
      simp only [paginate_all]
      rw [hexec.2, hexec.1]

/-- Claim C5 (amended): over a fixed snapshot whose created_at sort values
are pairwise distinct, iterating the cursor pagination end-to-end from
cursor=null with any limit of at least 1 yields exactly the snapshot's
document IDs, each exactly once (the yielded id list is a permutation of
the snapshot's id list).  When sort values collide at a page boundary the
guarantee fails, because the filter uses only the strict inequality on the
sort value and ignores the encoded last_id tie-breaker, as the
counterexample shows. -/
theorem C5_amended_pagination_perm (docs : List Document) (limit : Nat)
    (hl : 1 ≤ limit) (hnd : (docs.map Document.created_at).Nodup) :
    ((paginate_from_start docs limit).map (fun d => d.id)).Perm
      (docs.map (fun d => d.id)) := by
  unfold paginate_from_start
  have hlen : (sortedQuery docs none).length < docs.length + 1 := by
    have h2 := (sortedQuery_perm docs none).length_eq
    simp only [cursorQuery] at h2
    omega
  rw [paginate_all_eq docs limit hl hnd (docs.length + 1) none (fun cd h => by cases h) hlen]
  exact (sortedQuery_perm docs none).map (fun d => d.id)

/-- Witness for the amended claim C5: three documents with distinct
created_at values, iterated with limit 1, come back as a permutation of
the snapshot ids. -/
theorem C5_amended_witness :
    ((paginate_from_start
        [mkDoc 1 5 .completed, mkDoc 2 3 .completed, mkDoc 3 9 .completed] 1).map
      (fun d => d.id)).Perm
      (([mkDoc 1 5 .completed, mkDoc 2 3 .completed, mkDoc 3 9 .completed]).map
        (fun d => d.id)) :=
  C5_amended_pagination_perm
    [mkDoc 1 5 .completed, mkDoc 2 3 .completed, mkDoc 3 9 .completed] 1
    (by decide) (by decide)

end DocIntel
